import Mathlib

/-!
Verification of the spacedtaxi gameplay core against its specification.

The development shallowly embeds the three core subsystems of the game:
the taxi flight/landing-gear state machine (TaxiStateMachine.ts), the
procedural level generator (LevelGenerator.ts), the spacing resolver of the
LevelGenerator revision that carries one, and the mission/timer orchestration
(MissionOrchestrator.ts together with PassengerManager.ts and the platform
bookkeeping of PlatformManager.ts).  Rendering, audio and speech synthesis
are external collaborators per the specification and are not modelled.
-/

namespace SpacedTaxi

/-! ## Taxi flight state machine (TaxiStateMachine.ts) -/

/-- The TaxiState enumeration of TaxiStateMachine.ts: two gear values and two
engine values share one enumeration in the source. -/
inductive TaxiState where
  | gearup
  | geardown
  | idle
  | thrusting
deriving DecidableEq, Fintype

/-- Gear transition table installed by setupTransitions: the two edges
GEAR_UP to GEAR_DOWN and GEAR_DOWN to GEAR_UP, in insertion order.  The
side-effect hooks (animations, logging) are external collaborators. -/
def gearTransitions : List (TaxiState × TaxiState) :=
  [(TaxiState.gearup, TaxiState.geardown), (TaxiState.geardown, TaxiState.gearup)]

/-- Engine transition table installed by setupTransitions: IDLE to THRUSTING
and THRUSTING to IDLE, in insertion order. -/
def engineTransitions : List (TaxiState × TaxiState) :=
  [(TaxiState.idle, TaxiState.thrusting), (TaxiState.thrusting, TaxiState.idle)]

/-- Membership test of an edge in a transition table, mirroring the
Map.has lookup on the string key from-to. -/
def hasTransition (table : List (TaxiState × TaxiState)) (src tgt : TaxiState) : Bool :=
  table.any (fun e => e.1 == src && e.2 == tgt)

/-- The mutable state of a TaxiStateMachine: the two orthogonal sub-states.
The sprite, scene and sound manager references are rendering collaborators. -/
structure TaxiSM where
  gearState : TaxiState
  engineState : TaxiState
deriving DecidableEq

/-- transitionGearState: a request for the current state is rejected; an edge
absent from the gear table is rejected; otherwise the gear state is updated
and the call reports success. -/
def transitionGearState (sm : TaxiSM) (newState : TaxiState) : Bool × TaxiSM :=
  if sm.gearState == newState then (false, sm)
  else if hasTransition gearTransitions sm.gearState newState then
    (true, { sm with gearState := newState })
  else (false, sm)

/-- transitionEngineState, the engine-axis analogue. -/
def transitionEngineState (sm : TaxiSM) (newState : TaxiState) : Bool × TaxiSM :=
  if sm.engineState == newState then (false, sm)
  else if hasTransition engineTransitions sm.engineState newState then
    (true, { sm with engineState := newState })
  else (false, sm)

/-- toggleGear: request the opposite gear state. -/
def toggleGear (sm : TaxiSM) : Bool × TaxiSM :=
  let targetState :=
    if sm.gearState == TaxiState.gearup then TaxiState.geardown else TaxiState.gearup
  transitionGearState sm targetState

/-- setEngineState: rejects a value that is not an engine state, otherwise
delegates to transitionEngineState. -/
def setEngineState (sm : TaxiSM) (newState : TaxiState) : Bool × TaxiSM :=
  if !(newState == TaxiState.idle) && !(newState == TaxiState.thrusting) then (false, sm)
  else transitionEngineState sm newState

def isGearUp (sm : TaxiSM) : Bool := sm.gearState == TaxiState.gearup

def isGearDown (sm : TaxiSM) : Bool := sm.gearState == TaxiState.geardown

def isThrusting (sm : TaxiSM) : Bool := sm.engineState == TaxiState.thrusting

def isIdle (sm : TaxiSM) : Bool := sm.engineState == TaxiState.idle

/-- canTransitionTo: a gear value is checked against the gear table from the
current gear state, an engine value against the engine table from the current
engine state; requesting the current state reports false. -/
def canTransitionTo (sm : TaxiSM) (state : TaxiState) : Bool :=
  if state == TaxiState.gearup || state == TaxiState.geardown then
    if sm.gearState == state then false
    else hasTransition gearTransitions sm.gearState state
  else if state == TaxiState.idle || state == TaxiState.thrusting then
    if sm.engineState == state then false
    else hasTransition engineTransitions sm.engineState state
  else false

/-- getValidTransitions: targets of gear-table edges leaving the current gear
state, then targets of engine-table edges leaving the current engine state,
in table insertion order.  Note that the result depends only on the machine
state, never on the live thrust input. -/
def getValidTransitions (sm : TaxiSM) : List TaxiState :=
  ((gearTransitions.filter (fun t => t.1 == sm.gearState)).map (fun t => t.2)) ++
  ((engineTransitions.filter (fun t => t.1 == sm.engineState)).map (fun t => t.2))

/-- One externally triggerable mutation of the machine: a gear toggle request
or an engine-state request (Game.handleTaxiInput polls input and issues
setEngineState; the SPACE handler issues toggleGear). -/
inductive TaxiStep : TaxiSM → TaxiSM → Prop where
  | toggle (sm : TaxiSM) : TaxiStep sm (toggleGear sm).2
  | engine (sm : TaxiSM) (s : TaxiState) : TaxiStep sm (setEngineState sm s).2

/-- Machine states reachable from the initial machine: Game.createTaxi
constructs the machine with GEAR_UP and the engine field initialised IDLE. -/
inductive TaxiReachable : TaxiSM → Prop where
  | init : TaxiReachable ⟨TaxiState.gearup, TaxiState.idle⟩
  | step {sm sm2 : TaxiSM} : TaxiReachable sm → TaxiStep sm sm2 → TaxiReachable sm2

/-- The gear axis holds a gear value and the engine axis an engine value. -/
def WellFormedTaxi (sm : TaxiSM) : Prop :=
  (sm.gearState = TaxiState.gearup ∨ sm.gearState = TaxiState.geardown) ∧
  (sm.engineState = TaxiState.idle ∨ sm.engineState = TaxiState.thrusting)

theorem taxiReachable_wellFormed {sm : TaxiSM} (h : TaxiReachable sm) : WellFormedTaxi sm := by
  induction h with
  | init => exact ⟨Or.inl rfl, Or.inl rfl⟩
  | step _ hstep ih =>
    cases hstep with
    | toggle =>
      obtain ⟨hg, he⟩ := ih
      unfold toggleGear transitionGearState
      rcases hg with h | h <;> rw [h] <;>
        exact ⟨by simp [hasTransition, gearTransitions], he⟩
    | engine s =>
      obtain ⟨hg, he⟩ := ih
      unfold setEngineState transitionEngineState
      rcases he with h | h <;> cases s <;>
        simp [hasTransition, engineTransitions, WellFormedTaxi, h] <;> tauto

/-- The engine clause of the spec claim about getValidTransitions: from IDLE
the returned list contains THRUSTING exactly when directional thrust input is
currently active.  The machine itself never sees the input, so the claim is
stated with the input as an extra parameter. -/
def claimEngineQueryReflectsInput (sm : TaxiSM) (thrustInputActive : Bool) : Prop :=
  sm.engineState = TaxiState.idle →
    (TaxiState.thrusting ∈ getValidTransitions sm ↔ thrustInputActive = true)

/-- C9 counterexample: the claim fails at the initial machine (gear up, engine
idle) with no thrust input active, because getValidTransitions lists the
IDLE-to-THRUSTING edge unconditionally. -/
theorem c9_getValidTransitions_counterexample :
    ¬ (∀ (sm : TaxiSM) (thrustInputActive : Bool), TaxiReachable sm →
        claimEngineQueryReflectsInput sm thrustInputActive) := by
  intro h
  have h2 := h ⟨TaxiState.gearup, TaxiState.idle⟩ false TaxiReachable.init
  have h3 : TaxiState.thrusting ∈ getValidTransitions ⟨TaxiState.gearup, TaxiState.idle⟩ := by
    decide
  have h4 := (h2 rfl).mp h3
  exact Bool.false_ne_true h4

/-- C9 amended: in every reachable machine state, from GEAR_UP the only gear
state reachable in one step is GEAR_DOWN and vice versa (canTransitionTo and
the gear edges agree with exactly those two edges); getValidTransitions from
engine IDLE always contains THRUSTING and never IDLE, and from THRUSTING
always contains IDLE and never THRUSTING, independent of the live thrust
input, which only determines when a transition is requested. -/
theorem c9_queries_reflect_edges (sm : TaxiSM) (h : TaxiReachable sm) :
    (sm.gearState = TaxiState.gearup →
      (∀ s, (transitionGearState sm s).1 = true ↔ s = TaxiState.geardown) ∧
      canTransitionTo sm TaxiState.geardown = true ∧
      canTransitionTo sm TaxiState.gearup = false) ∧
    (sm.gearState = TaxiState.geardown →
      (∀ s, (transitionGearState sm s).1 = true ↔ s = TaxiState.gearup) ∧
      canTransitionTo sm TaxiState.gearup = true ∧
      canTransitionTo sm TaxiState.geardown = false) ∧
    (TaxiState.thrusting ∈ getValidTransitions sm ↔ sm.engineState = TaxiState.idle) ∧
    (TaxiState.idle ∈ getValidTransitions sm ↔ sm.engineState = TaxiState.thrusting) := by
  obtain ⟨hg, he⟩ := taxiReachable_wellFormed h
  obtain ⟨g, e⟩ := sm
  simp only at hg he
  rcases hg with hg | hg <;> rcases he with he | he <;> subst hg <;> subst he <;> decide

/-- C9 witness: the amended theorem applied to the initial machine state. -/
theorem c9_queries_reflect_edges_witness :
    TaxiReachable (⟨TaxiState.gearup, TaxiState.idle⟩ : TaxiSM) ∧
    (TaxiState.thrusting ∈ getValidTransitions ⟨TaxiState.gearup, TaxiState.idle⟩ ↔
      (⟨TaxiState.gearup, TaxiState.idle⟩ : TaxiSM).engineState = TaxiState.idle) :=
  ⟨TaxiReachable.init,
   (c9_queries_reflect_edges ⟨TaxiState.gearup, TaxiState.idle⟩ TaxiReachable.init).2.2.1⟩

/-- C10: in every reachable machine state, toggleGear succeeds, a second
toggleGear succeeds again and restores the original gear state, and neither
call touches the engine state. -/
theorem c10_toggleGear_involution (sm : TaxiSM) (h : TaxiReachable sm) :
    (toggleGear sm).1 = true ∧
    (toggleGear sm).2.engineState = sm.engineState ∧
    (toggleGear (toggleGear sm).2).1 = true ∧
    (toggleGear (toggleGear sm).2).2.gearState = sm.gearState ∧
    (toggleGear (toggleGear sm).2).2.engineState = sm.engineState := by
  obtain ⟨hg, _⟩ := taxiReachable_wellFormed h
  obtain ⟨g, e⟩ := sm
  simp only at hg
  rcases hg with hg | hg <;> subst hg <;>
    simp [toggleGear, transitionGearState, hasTransition, gearTransitions]

/-- C10 witness: the toggle involution at the initial machine state. -/
theorem c10_toggleGear_involution_witness :
    TaxiReachable (⟨TaxiState.gearup, TaxiState.idle⟩ : TaxiSM) ∧
    (toggleGear ⟨TaxiState.gearup, TaxiState.idle⟩).1 = true ∧
    (toggleGear (toggleGear ⟨TaxiState.gearup, TaxiState.idle⟩).2).2.gearState =
      (⟨TaxiState.gearup, TaxiState.idle⟩ : TaxiSM).gearState :=
  ⟨TaxiReachable.init,
   (c10_toggleGear_involution ⟨TaxiState.gearup, TaxiState.idle⟩ TaxiReachable.init).1,
   (c10_toggleGear_involution ⟨TaxiState.gearup, TaxiState.idle⟩ TaxiReachable.init).2.2.2.1⟩

/-! ## Level generation (src/game/systems/LevelGenerator.ts)

The configuration arithmetic and the platform identifier scheme are embedded
exactly.  Platform coordinates are trigonometric functions of the arm angle
with bounded random jitter; no claim depends on them and they are omitted
from the platform record (the spacing resolver of the other LevelGenerator
revision, which does manipulate coordinates, is embedded separately below). -/

def basePlatformCount : Nat := 6

def basePassengerCount : Nat := 2

structure LevelConfig where
  levelNumber : Nat
  platformCount : Nat
  passengerCount : Nat
  difficulty : ℚ
  seed : Nat
deriving DecidableEq

/-- createLevelConfig: platform and passenger counts grow every third and
every second level and saturate at 16 and 8; difficulty is levelNumber times
0.2 capped at 2.0.  The seed argument falls back to a freshly generated seed
when it is absent or zero, mirroring the JavaScript seed-or-generateSeed
expression in which 0 is falsy; freshSeed stands for the Math.random draw. -/
def createLevelConfig (levelNumber : Nat) (seed : Option Nat) (freshSeed : Nat) : LevelConfig :=
  let platformIncrease := (levelNumber - 1) / 3
  let passengerIncrease := (levelNumber - 1) / 2
  { levelNumber := levelNumber
    platformCount := min (basePlatformCount + platformIncrease) 16
    passengerCount := min (basePassengerCount + passengerIncrease) 8
    difficulty := min ((levelNumber : ℚ) * (1/5)) 2
    seed := match seed with
      | some s => if s ≠ 0 then s else freshSeed
      | none => freshSeed }

/-- A generated platform: its identifier and the arm/platform indices it was
generated from.  The x and y coordinates of the source are omitted (see the
section comment). -/
structure PlatformData where
  id : String
  armIndex : Nat
  platformIndex : Nat
deriving DecidableEq

def idLetters : List Char :=
  ['A', 'B', 'C', 'D', 'E', 'F', 'G', 'H', 'I', 'J', 'K', 'L', 'M',
   'N', 'O', 'P', 'Q', 'R', 'S', 'T', 'U', 'V', 'W', 'X', 'Y', 'Z']

/-- generatePlatformId: one letter chosen by arm index and a number equal to
platformIndex + 1 + armIndex * 10. -/
def generatePlatformId (armIndex platformIndex : Nat) : String :=
  let letter := idLetters.getD (armIndex % 26) 'A'
  let number := (platformIndex + 1) + armIndex * 10
  String.mk [letter] ++ toString number

/-- generateArmPlatforms, restricted to the identifier-relevant data: one
platform per index along the arm. -/
def generateArmPlatforms (armIndex platformCount : Nat) : List PlatformData :=
  (List.range platformCount).map (fun platformIndex =>
    { id := generatePlatformId armIndex platformIndex
      armIndex := armIndex
      platformIndex := platformIndex })

/-- The arm loop of generatePlatforms: each arm contributes at most
platformsPerArm platforms and never more than the remaining quota; the loop
stops once the quota is reached.  Structural recursion on the number of arms
left to process. -/
def buildArms (platformsPerArm platformCount : Nat) :
    Nat → Nat → List PlatformData → List PlatformData
  | 0, _, acc => acc
  | Nat.succ remainingArms, armIndex, acc =>
    let actualPlatformsThisArm := min platformsPerArm (platformCount - acc.length)
    let acc2 := acc ++ generateArmPlatforms armIndex actualPlatformsThisArm
    if platformCount ≤ acc2.length then acc2
    else buildArms platformsPerArm platformCount remainingArms (armIndex + 1) acc2

/-- generatePlatforms: 2 to 4 arms depending on the platform count, each arm
receiving the ceiling share of the platforms. -/
def generatePlatforms (platformCount : Nat) : List PlatformData :=
  let armCount := min (max 2 ((platformCount + 3) / 4)) 4
  let platformsPerArm := (platformCount + armCount - 1) / armCount
  buildArms platformsPerArm platformCount armCount 0 []

/-- generateLevel: derive the config, then generate the platforms.  The
space-station centre is pure geometry and is omitted. -/
def generateLevel (levelNumber : Nat) (seed : Option Nat) (freshSeed : Nat) :
    LevelConfig × List PlatformData :=
  let config := createLevelConfig levelNumber seed freshSeed
  (config, generatePlatforms config.platformCount)

/-- C4: the generated config realises the saturating formulas of the spec,
platform and passenger counts are non-decreasing in the level number, and the
caps 16 and 8 are never exceeded. -/
theorem c4_levelConfig_monotone_capped (n m : Nat) (seed : Option Nat) (freshSeed : Nat)
    (hn : 1 ≤ n) (hnm : n ≤ m) :
    (createLevelConfig n seed freshSeed).platformCount
        = min (basePlatformCount + (n - 1) / 3) 16 ∧
    (createLevelConfig n seed freshSeed).passengerCount
        = min (basePassengerCount + (n - 1) / 2) 8 ∧
    (createLevelConfig n seed freshSeed).difficulty = min ((n : ℚ) * (1/5)) 2 ∧
    (createLevelConfig n seed freshSeed).platformCount
        ≤ (createLevelConfig m seed freshSeed).platformCount ∧
    (createLevelConfig n seed freshSeed).passengerCount
        ≤ (createLevelConfig m seed freshSeed).passengerCount ∧
    (createLevelConfig n seed freshSeed).platformCount ≤ 16 ∧
    (createLevelConfig n seed freshSeed).passengerCount ≤ 8 := by
  refine ⟨rfl, rfl, rfl, ?_, ?_, ?_, ?_⟩ <;>
    simp only [createLevelConfig, basePlatformCount, basePassengerCount] <;> omega

/-- C4 witness: the config facts at levels 3 and 5. -/
theorem c4_levelConfig_monotone_capped_witness :
    1 ≤ 3 ∧ 3 ≤ 5 ∧
    ((createLevelConfig 3 none 0).platformCount = min (basePlatformCount + (3 - 1) / 3) 16 ∧
     (createLevelConfig 3 none 0).passengerCount = min (basePassengerCount + (3 - 1) / 2) 8 ∧
     (createLevelConfig 3 none 0).difficulty = min ((3 : ℚ) * (1/5)) 2 ∧
     (createLevelConfig 3 none 0).platformCount ≤ (createLevelConfig 5 none 0).platformCount ∧
     (createLevelConfig 3 none 0).passengerCount ≤ (createLevelConfig 5 none 0).passengerCount ∧
     (createLevelConfig 3 none 0).platformCount ≤ 16 ∧
     (createLevelConfig 3 none 0).passengerCount ≤ 8) :=
  ⟨by decide, by decide,
   c4_levelConfig_monotone_capped 3 5 none 0 (by decide) (by decide)⟩

theorem platformCount_bounds (n : Nat) (seed : Option Nat) (freshSeed : Nat) :
    6 ≤ (createLevelConfig n seed freshSeed).platformCount ∧
    (createLevelConfig n seed freshSeed).platformCount ≤ 16 := by
  simp only [createLevelConfig, basePlatformCount]
  omega

theorem platformIds_nodup_of_bounds (pc : Nat) (h6 : 6 ≤ pc) (h16 : pc ≤ 16) :
    ((generatePlatforms pc).map PlatformData.id).Nodup := by
  interval_cases pc <;> decide

/-- C5: for every level number at least 1 and every seed, the identifiers of
the generated platform set are pairwise distinct. -/
theorem c5_platformIds_nodup (n : Nat) (seed : Option Nat) (freshSeed : Nat) (hn : 1 ≤ n) :
    (((generateLevel n seed freshSeed).2).map PlatformData.id).Nodup := by
  obtain ⟨h6, h16⟩ := platformCount_bounds n seed freshSeed
  exact platformIds_nodup_of_bounds _ h6 h16

/-- C5 witness: distinct identifiers at level 7. -/
theorem c5_platformIds_nodup_witness :
    1 ≤ 7 ∧ (((generateLevel 7 none 0).2).map PlatformData.id).Nodup :=
  ⟨by decide, c5_platformIds_nodup 7 none 0 (by decide)⟩

/-! ## Spacing resolver (optimizePlatformSpacing of the LevelGenerator
revision that carries it)

Positions are modelled over the rationals.  The source computes the pair
distance with Math.sqrt and compares it against minDistance and 0; since both
sides are nonnegative, the comparisons are rendered exactly in squared form.
The push magnitude genuinely needs a square root, which is irrational in
general, so the model takes the square-root function as a parameter of the
configuration; none of the claims about the resolver depend on its values. -/

structure QPlat where
  x : ℚ
  y : ℚ
deriving DecidableEq

def spacingMinDistance : ℚ := 150

def spacingMaxIterations : Nat := 10

/-- The scene dimensions and the stand-in for Math.sqrt. -/
structure SpacingCfg where
  width : ℚ
  height : ℚ
  sqrtQ : ℚ → ℚ

def clampQ (lo hi v : ℚ) : ℚ := max lo (min hi v)

def distSq (p q : QPlat) : ℚ :=
  (p.x - q.x) * (p.x - q.x) + (p.y - q.y) * (p.y - q.y)

/-- The body of the inner double loop for one pair: if the pair is closer
than minDistance but not coincident, push both platforms apart along the
connecting line by half the deficit each and re-clamp into the 80-pixel
margin of the viewport; report whether a push happened.  The source guard is
distance < minDistance and distance > 0 on the square root of distSq, which
is equivalent to the squared comparison used here; cos and sin of the
atan2 push angle are dx over distance and dy over distance. -/
def pairAdjust (cfg : SpacingCfg) (p1 p2 : QPlat) : QPlat × QPlat × Bool :=
  let dx := p1.x - p2.x
  let dy := p1.y - p2.y
  let dsq := dx * dx + dy * dy
  if dsq < spacingMinDistance * spacingMinDistance ∧ 0 < dsq then
    let distance := cfg.sqrtQ dsq
    let pushForce := (spacingMinDistance - distance) / 2
    let pushX := (dx / distance) * pushForce
    let pushY := (dy / distance) * pushForce
    ({ x := clampQ 80 (cfg.width - 80) (p1.x + pushX)
       y := clampQ 80 (cfg.height - 80) (p1.y + pushY) },
     { x := clampQ 80 (cfg.width - 80) (p2.x - pushX)
       y := clampQ 80 (cfg.height - 80) (p2.y - pushY) }, true)
  else (p1, p2, false)

/-- The ordered list of index pairs (i, j) with i < j < n, in the visiting
order of the nested loops. -/
def pairIndices (n : Nat) : List (Nat × Nat) :=
  (List.range n).flatMap (fun i => (List.range (n - i - 1)).map (fun k => (i, i + 1 + k)))

/-- Processing one index pair against the current platform list. -/
def pairStep (cfg : SpacingCfg) (st : List QPlat × Bool) (ij : Nat × Nat) :
    List QPlat × Bool :=
  let p1 := st.1.getD ij.1 ⟨0, 0⟩
  let p2 := st.1.getD ij.2 ⟨0, 0⟩
  let (q1, q2, m) := pairAdjust cfg p1 p2
  ((st.1.set ij.1 q1).set ij.2 q2, st.2 || m)

/-- One relaxation pass over all pairs, returning the adjusted list and the
moved flag. -/
def spacingPass (cfg : SpacingCfg) (plats : List QPlat) : List QPlat × Bool :=
  (pairIndices plats.length).foldl (pairStep cfg) (plats, false)

/-- The outer iteration loop: run passes until one reports no movement or the
budget is exhausted; also report how many passes ran. -/
def spacingLoop (cfg : SpacingCfg) : Nat → List QPlat → List QPlat × Nat
  | 0, plats => (plats, 0)
  | Nat.succ remaining, plats =>
    let passResult := spacingPass cfg plats
    if passResult.2 then
      let rest := spacingLoop cfg remaining passResult.1
      (rest.1, rest.2 + 1)
    else (passResult.1, 1)

/-- optimizePlatformSpacing: at most spacingMaxIterations relaxation passes. -/
def optimizePlatformSpacing (cfg : SpacingCfg) (plats : List QPlat) : List QPlat × Nat :=
  spacingLoop cfg spacingMaxIterations plats

/-- Pairwise separation as the claim states it: every pair at squared
distance at least minDistance squared. -/
def allSeparated (plats : List QPlat) : Prop :=
  plats.Pairwise (fun p q => spacingMinDistance * spacingMinDistance ≤ distSq p q)

instance (plats : List QPlat) : Decidable (allSeparated plats) :=
  inferInstanceAs (Decidable (plats.Pairwise _))

theorem pairAdjust_not_moved {cfg : SpacingCfg} {p1 p2 : QPlat}
    (h : (pairAdjust cfg p1 p2).2.2 = false) :
    (pairAdjust cfg p1 p2).1 = p1 ∧ (pairAdjust cfg p1 p2).2.1 = p2 ∧
    ¬(distSq p1 p2 < spacingMinDistance * spacingMinDistance ∧ 0 < distSq p1 p2) := by
  simp only [pairAdjust] at h ⊢
  split_ifs at h ⊢ with hc
  exact ⟨rfl, rfl, by simpa [distSq] using hc⟩

theorem set_getD_self {α : Type} (l : List α) (i : Nat) (d : α) :
    l.set i (l.getD i d) = l := by
  induction l generalizing i with
  | nil => rfl
  | cons a t ih =>
    cases i with
    | zero => rw [List.getD_cons_zero, List.set_cons_zero]
    | succ n => rw [List.getD_cons_succ, List.set_cons_succ, ih]

theorem foldl_pairStep_false (cfg : SpacingCfg) (l : List (Nat × Nat))
    (plats : List QPlat) (b : Bool)
    (h : (l.foldl (pairStep cfg) (plats, b)).2 = false) :
    b = false ∧ (l.foldl (pairStep cfg) (plats, b)).1 = plats ∧
    ∀ ij ∈ l, (pairAdjust cfg (plats.getD ij.1 ⟨0, 0⟩) (plats.getD ij.2 ⟨0, 0⟩)).2.2 = false := by
  induction l generalizing plats b with
  | nil =>
    refine ⟨by simpa using h, by simp, by simp⟩
  | cons ij t ih =>
    rw [List.foldl_cons] at h
    have hstep : pairStep cfg (plats, b) ij =
        ((plats.set ij.1 (pairAdjust cfg (plats.getD ij.1 ⟨0, 0⟩)
            (plats.getD ij.2 ⟨0, 0⟩)).1).set ij.2
          (pairAdjust cfg (plats.getD ij.1 ⟨0, 0⟩) (plats.getD ij.2 ⟨0, 0⟩)).2.1,
         b || (pairAdjust cfg (plats.getD ij.1 ⟨0, 0⟩) (plats.getD ij.2 ⟨0, 0⟩)).2.2) := rfl
    rw [hstep] at h
    have ih2 := ih _ _ h
    obtain ⟨hb, hfix, hall⟩ := ih2
    have hbb : b = false ∧
        (pairAdjust cfg (plats.getD ij.1 ⟨0, 0⟩) (plats.getD ij.2 ⟨0, 0⟩)).2.2 = false := by
      constructor <;> [exact (Bool.or_eq_false_iff.mp hb).1; exact (Bool.or_eq_false_iff.mp hb).2]
    obtain ⟨hb0, hm⟩ := hbb
    obtain ⟨hq1, hq2, _⟩ := pairAdjust_not_moved hm
    have hsame :
        (plats.set ij.1 (pairAdjust cfg (plats.getD ij.1 ⟨0, 0⟩)
            (plats.getD ij.2 ⟨0, 0⟩)).1).set ij.2
          (pairAdjust cfg (plats.getD ij.1 ⟨0, 0⟩) (plats.getD ij.2 ⟨0, 0⟩)).2.1 = plats := by
      rw [hq1, hq2, set_getD_self, set_getD_self]
    rw [List.foldl_cons, hstep, hsame]
    rw [hsame] at hfix hall
    refine ⟨hb0, hfix, ?_⟩
    intro kl hkl
    rcases List.mem_cons.mp hkl with h1 | h1
    · subst h1; exact hm
    · exact hall kl h1

theorem spacingPass_false (cfg : SpacingCfg) (plats : List QPlat)
    (h : (spacingPass cfg plats).2 = false) :
    (spacingPass cfg plats).1 = plats ∧
    ∀ ij ∈ pairIndices plats.length,
      (pairAdjust cfg (plats.getD ij.1 ⟨0, 0⟩) (plats.getD ij.2 ⟨0, 0⟩)).2.2 = false := by
  have h2 := foldl_pairStep_false cfg (pairIndices plats.length) plats false h
  exact ⟨h2.2.1, h2.2.2⟩

theorem mem_pairIndices {i j n : Nat} (hij : i < j) (hjn : j < n) :
    (i, j) ∈ pairIndices n := by
  unfold pairIndices
  simp only [List.mem_flatMap, List.mem_map, List.mem_range]
  refine ⟨i, by omega, j - i - 1, by omega, ?_⟩
  have : i + 1 + (j - i - 1) = j := by omega
  rw [this]

/-- 0 is below every squared distance. -/
theorem distSq_nonneg (p q : QPlat) : 0 ≤ distSq p q := by
  have h1 := mul_self_nonneg (p.x - q.x)
  have h2 := mul_self_nonneg (p.y - q.y)
  unfold distSq
  linarith

theorem spacingPass_false_separated (cfg : SpacingCfg) (plats : List QPlat)
    (h : (spacingPass cfg plats).2 = false) :
    plats.Pairwise (fun p q =>
      spacingMinDistance * spacingMinDistance ≤ distSq p q ∨ distSq p q = 0) := by
  rw [List.pairwise_iff_getElem]
  intro i j hi hj hij
  have hmem := mem_pairIndices hij hj
  have hpair := (spacingPass_false cfg plats h).2 (i, j) hmem
  obtain ⟨_, _, hcond⟩ := pairAdjust_not_moved hpair
  rw [List.getD_eq_getElem plats ⟨0, 0⟩ hi, List.getD_eq_getElem plats ⟨0, 0⟩ hj] at hcond
  rcases not_and_or.mp hcond with hc | hc
  · exact Or.inl (not_lt.mp hc)
  · exact Or.inr (le_antisymm (not_lt.mp hc) (distSq_nonneg _ _))

theorem spacingLoop_early (cfg : SpacingCfg) (fuel : Nat) (plats : List QPlat)
    (h : (spacingLoop cfg fuel plats).2 < fuel) :
    (spacingPass cfg (spacingLoop cfg fuel plats).1).2 = false := by
  induction fuel generalizing plats with
  | zero => simp [spacingLoop] at h
  | succ k ih =>
    unfold spacingLoop at h ⊢
    cases hm : (spacingPass cfg plats).2 with
    | false =>
      simp only [hm, Bool.false_eq_true, if_false]
      rw [(spacingPass_false cfg plats hm).1]
      exact hm
    | true =>
      simp only [hm, if_true] at h ⊢
      exact ih _ (by omega)

theorem pairAdjust_of_not_close (cfg : SpacingCfg) (p1 p2 : QPlat)
    (h : ¬(distSq p1 p2 < spacingMinDistance * spacingMinDistance ∧ 0 < distSq p1 p2)) :
    pairAdjust cfg p1 p2 = (p1, p2, false) := by
  simp only [pairAdjust]
  rw [if_neg (by simpa [distSq] using h)]

theorem pairIndices_two : pairIndices 2 = [(0, 1)] := rfl

theorem spacingPass_two (cfg : SpacingCfg) (p q : QPlat)
    (h : ¬(distSq p q < spacingMinDistance * spacingMinDistance ∧ 0 < distSq p q)) :
    spacingPass cfg [p, q] = ([p, q], false) := by
  have h2 := pairAdjust_of_not_close cfg p q h
  unfold spacingPass
  rw [show ([p, q] : List QPlat).length = 2 from rfl, pairIndices_two]
  simp [pairStep, h2]

theorem spacingLoop_succ (cfg : SpacingCfg) (n : Nat) (plats : List QPlat) :
    spacingLoop cfg (Nat.succ n) plats =
      (let passResult := spacingPass cfg plats
       if passResult.2 then
         let rest := spacingLoop cfg n passResult.1
         (rest.1, rest.2 + 1)
       else (passResult.1, 1)) := rfl

theorem optimize_two_fixed (cfg : SpacingCfg) (p q : QPlat)
    (h : ¬(distSq p q < spacingMinDistance * spacingMinDistance ∧ 0 < distSq p q)) :
    optimizePlatformSpacing cfg [p, q] = ([p, q], 1) := by
  have hp := spacingPass_two cfg p q h
  unfold optimizePlatformSpacing spacingMaxIterations
  rw [show (10 : Nat) = Nat.succ 9 from rfl, spacingLoop_succ]
  simp [hp]

/-- C6 counterexample: on a list holding two coincident platforms the
resolver exits after a single pass, well inside the iteration budget, yet the
pair is at distance 0, far below minDistance; the claimed disjunction fails. -/
theorem c6_spacing_counterexample :
    ¬ (∀ (cfg : SpacingCfg) (plats : List QPlat),
        allSeparated (optimizePlatformSpacing cfg plats).1 ∨
        (optimizePlatformSpacing cfg plats).2 = spacingMaxIterations) := by
  intro h
  have hguard : ¬(distSq ⟨100, 100⟩ ⟨100, 100⟩ <
      spacingMinDistance * spacingMinDistance ∧ 0 < distSq (⟨100, 100⟩ : QPlat) ⟨100, 100⟩) := by
    norm_num [distSq]
  have hopt := optimize_two_fixed ⟨1024, 768, fun _ => 0⟩ ⟨100, 100⟩ ⟨100, 100⟩ hguard
  rcases h ⟨1024, 768, fun _ => 0⟩ [⟨100, 100⟩, ⟨100, 100⟩] with h2 | h2
  · rw [hopt] at h2
    norm_num [allSeparated, distSq, spacingMinDistance] at h2
  · rw [hopt] at h2
    norm_num [spacingMaxIterations] at h2

/-- C6 amended: when the resolver returns without exhausting the iteration
budget, every pair of returned platforms is either at distance at least
minDistance or coincident (distance exactly 0, which the push guard skips),
and the loop indeed stopped because a whole pass produced no movement: the
returned list is a fixed point of the relaxation pass. -/
theorem c6_spacing_separated_or_coincident (cfg : SpacingCfg) (plats : List QPlat)
    (h : (optimizePlatformSpacing cfg plats).2 < spacingMaxIterations) :
    ((optimizePlatformSpacing cfg plats).1).Pairwise (fun p q =>
        spacingMinDistance * spacingMinDistance ≤ distSq p q ∨ distSq p q = 0) ∧
    (spacingPass cfg (optimizePlatformSpacing cfg plats).1).2 = false := by
  have h2 := spacingLoop_early cfg spacingMaxIterations plats h
  exact ⟨spacingPass_false_separated cfg _ h2, h2⟩

/-- C6 witness: a well-separated two-platform list exits after one pass with
the separation property. -/
theorem c6_spacing_separated_or_coincident_witness :
    (optimizePlatformSpacing ⟨1024, 768, fun _ => 0⟩
        [⟨100, 100⟩, ⟨400, 400⟩]).2 < spacingMaxIterations ∧
    ((optimizePlatformSpacing ⟨1024, 768, fun _ => 0⟩ [⟨100, 100⟩, ⟨400, 400⟩]).1).Pairwise
      (fun p q => spacingMinDistance * spacingMinDistance ≤ distSq p q ∨ distSq p q = 0) := by
  have hguard : ¬(distSq ⟨100, 100⟩ ⟨400, 400⟩ <
      spacingMinDistance * spacingMinDistance ∧ 0 < distSq (⟨100, 100⟩ : QPlat) ⟨400, 400⟩) := by
    norm_num [distSq, spacingMinDistance]
  have hopt := optimize_two_fixed ⟨1024, 768, fun _ => 0⟩ ⟨100, 100⟩ ⟨400, 400⟩ hguard
  refine ⟨by rw [hopt]; norm_num [spacingMaxIterations], ?_⟩
  exact (c6_spacing_separated_or_coincident ⟨1024, 768, fun _ => 0⟩
    [⟨100, 100⟩, ⟨400, 400⟩] (by rw [hopt]; norm_num [spacingMaxIterations])).1

/-! ## Mission orchestration (MissionOrchestrator.ts, PassengerManager.ts,
platform occupancy of PlatformManager.ts)

The passenger name, gender, personality, dialogue and voice fields feed the
rendering and speech collaborators only and are omitted; passenger and
mission identifiers are modelled by a fresh-id counter standing for the
Date.now-and-random identifier strings.  The source keeps the passenger
object aliased inside its mission record; the model stores the passenger id
in the mission and looks the passenger up in the manager list, which agrees
with the source because every mission is created together with its
passenger.  Phaser timer events are modelled as flags plus an explicit event
relation: timersActive stands for the paired pickupTimer and
timerUpdateEvent, and pendingSpawn for the 2000 ms delayed spawn scheduled by
attemptDelivery (the source never cancels that delayed call outside endGame). -/

structure PassengerS where
  id : Nat
  pickupPlatform : String
  destinationPlatform : String
  isPickedUp : Bool
  isDelivered : Bool
deriving DecidableEq

inductive MissionStatus where
  | waiting
  | active
  | completed
deriving DecidableEq

structure MissionS where
  id : Nat
  passengerId : Nat
  status : MissionStatus
deriving DecidableEq

structure PassengerMgr where
  passengers : List PassengerS
  missions : List MissionS
  nextId : Nat
deriving DecidableEq

/-- Replace the first element satisfying the predicate, mirroring a mutation
through Array.prototype.find in the source. -/
def updateFirst {α : Type} (p : α → Bool) (f : α → α) : List α → List α
  | [] => []
  | x :: xs => if p x then f x :: xs else x :: updateFirst p f xs

/-- createMission: generate a fresh passenger bound to the two platforms and
a mission in status waiting, and append both. -/
def createMission (pm : PassengerMgr) (pickupPlatform destinationPlatform : String) :
    MissionS × PassengerMgr :=
  let passenger : PassengerS :=
    { id := pm.nextId, pickupPlatform := pickupPlatform,
      destinationPlatform := destinationPlatform, isPickedUp := false, isDelivered := false }
  let mission : MissionS := { id := pm.nextId, passengerId := passenger.id,
                              status := MissionStatus.waiting }
  (mission,
   { passengers := pm.passengers ++ [passenger],
     missions := pm.missions ++ [mission],
     nextId := pm.nextId + 1 })

/-- pickupPassenger: succeeds when the passenger and its mission exist and
the passenger is not yet aboard; marks the passenger picked up and the
mission active. -/
def pickupPassenger (pm : PassengerMgr) (passengerId : Nat) : Bool × PassengerMgr :=
  match pm.passengers.find? (fun p => p.id == passengerId),
        pm.missions.find? (fun m => m.passengerId == passengerId) with
  | some p, some _ =>
    if !p.isPickedUp then
      (true,
       { pm with
         passengers := updateFirst (fun q => q.id == passengerId)
           (fun q => { q with isPickedUp := true }) pm.passengers,
         missions := updateFirst (fun m => m.passengerId == passengerId)
           (fun m => { m with status := MissionStatus.active }) pm.missions })
    else (false, pm)
  | _, _ => (false, pm)

/-- deliverPassenger: succeeds when the passenger and its mission exist, the
passenger is aboard and not yet delivered; marks the passenger delivered and
the mission completed. -/
def deliverPassenger (pm : PassengerMgr) (passengerId : Nat) : Bool × PassengerMgr :=
  match pm.passengers.find? (fun p => p.id == passengerId),
        pm.missions.find? (fun m => m.passengerId == passengerId) with
  | some p, some _ =>
    if p.isPickedUp && !p.isDelivered then
      (true,
       { pm with
         passengers := updateFirst (fun q => q.id == passengerId)
           (fun q => { q with isDelivered := true }) pm.passengers,
         missions := updateFirst (fun m => m.passengerId == passengerId)
           (fun m => { m with status := MissionStatus.completed }) pm.missions })
    else (false, pm)
  | _, _ => (false, pm)

/-- getActiveMissions: the missions still in play, waiting or active. -/
def getActiveMissions (pm : PassengerMgr) : List MissionS :=
  pm.missions.filter (fun m =>
    m.status == MissionStatus.waiting || m.status == MissionStatus.active)

/-- getCurrentPassenger: the passenger of the first mission in status active,
if any. -/
def getCurrentPassenger (pm : PassengerMgr) : Option PassengerS :=
  match pm.missions.filter (fun m => m.status == MissionStatus.active) with
  | [] => none
  | m :: _ => pm.passengers.find? (fun p => p.id == m.passengerId)

/-- The pickup platform of the passenger aliased in a mission record. -/
def missionPickupPlatform (pm : PassengerMgr) (m : MissionS) : Option String :=
  (pm.passengers.find? (fun p => p.id == m.passengerId)).map
    (fun p => p.pickupPlatform)

/-- The occupancy bookkeeping of one platform visual. -/
structure PlatformVisualS where
  id : String
  isOccupied : Bool
  passengerWaiting : Bool
deriving DecidableEq

/-- createPlatforms: every platform starts unoccupied with no passenger
waiting. -/
def createPlatforms (data : List PlatformData) : List PlatformVisualS :=
  data.map (fun p => { id := p.id, isOccupied := false, passengerWaiting := false })

def getPlatformById (platforms : List PlatformVisualS) (id : String) :
    Option PlatformVisualS :=
  platforms.find? (fun p => p.id == id)

def setPlatformPassengerWaiting (platforms : List PlatformVisualS) (id : String)
    (waiting : Bool) : List PlatformVisualS :=
  updateFirst (fun p => p.id == id) (fun p => { p with passengerWaiting := waiting }) platforms

inductive GameStatus where
  | loading
  | ready
  | playing
  | paused
  | level_complete
  | game_over
deriving DecidableEq

/-- The reason string handed to the GameOver scene: Time ran out, or Taxi
crashed. -/
inductive EndReason where
  | timeRanOut
  | crashed
deriving DecidableEq

structure GameStateS where
  currentLevel : Nat
  score : Int
  completedMissions : Nat
  totalMissions : Nat
  gameStatus : GameStatus
  timeRemaining : Int
deriving DecidableEq

structure OrchS where
  platforms : List PlatformVisualS
  pm : PassengerMgr
  gameState : GameStateS
  timersActive : Bool
  pendingSpawn : Bool
  endReason : Option EndReason
deriving DecidableEq

/-- startPickupTimer: reset the countdown to the full 20-unit interval and
(re)arm the paired timers. -/
def startPickupTimer (o : OrchS) : OrchS :=
  { o with gameState := { o.gameState with timeRemaining := 20 }, timersActive := true }

/-- triggerGameOver: game over with the time-ran-out reason; the paired
timers are destroyed (the delayed spawn call is not). -/
def triggerGameOver (o : OrchS) : OrchS :=
  { o with gameState := { o.gameState with gameStatus := GameStatus.game_over },
           timersActive := false, endReason := some EndReason.timeRanOut }

/-- One firing of the per-second countdown event: decrement, then game over
once the countdown is no longer positive. -/
def timerTick (o : OrchS) : OrchS :=
  let o2 := { o with gameState :=
    { o.gameState with timeRemaining := o.gameState.timeRemaining - 1 } }
  if o2.gameState.timeRemaining ≤ 0 then triggerGameOver o2 else o2

/-- checkLevelComplete: level complete once every mission of the level is
delivered. -/
def checkLevelComplete (o : OrchS) : OrchS :=
  if o.gameState.totalMissions ≤ o.gameState.completedMissions then
    { o with gameState := { o.gameState with gameStatus := GameStatus.level_complete } }
  else o

/-- updateObjectiveDisplay: purely visual except for its final branch, which
runs checkLevelComplete when no waiting or active mission remains. -/
def updateObjectiveDisplay (o : OrchS) : OrchS :=
  if (getActiveMissions o.pm).isEmpty then checkLevelComplete o else o

/-- createRandomMission: with fewer than two platforms no mission is created;
otherwise two distinct platforms are drawn (the random draws are the pIdx and
dIdx parameters, with the do-while guaranteeing distinct indices), a mission
is created between them and the pickup platform is flagged. -/
def createRandomMission (o : OrchS) (pIdx dIdx : Nat) : OrchS :=
  if o.platforms.length < 2 then o
  else if h : pIdx < o.platforms.length ∧ dIdx < o.platforms.length ∧ dIdx ≠ pIdx then
    let pickupPlatform := o.platforms.get ⟨pIdx, h.1⟩
    let destinationPlatform := o.platforms.get ⟨dIdx, h.2.1⟩
    let created := createMission o.pm pickupPlatform.id destinationPlatform.id
    { o with pm := created.2,
             platforms := setPlatformPassengerWaiting o.platforms pickupPlatform.id true }
  else o

/-- startLevelMissions: one mission, then the objective display, then the
20-unit timer. -/
def startLevelMissions (o : OrchS) (pIdx dIdx : Nat) : OrchS :=
  startPickupTimer (updateObjectiveDisplay (createRandomMission o pIdx dIdx))

/-- The firing of the 2000 ms delayed call scheduled by a successful
delivery: spawn the next mission, refresh the objective display and restart
the timer. -/
def spawnFire (o : OrchS) (pIdx dIdx : Nat) : OrchS :=
  startLevelMissions { o with pendingSpawn := false } pIdx dIdx

/-- loadLevel: clear passengers and missions, generate the new level and its
platform visuals, and reset the mission counters. -/
def loadLevel (o : OrchS) (levelNumber : Nat) (seed : Option Nat) (freshSeed : Nat) : OrchS :=
  let level := generateLevel levelNumber seed freshSeed
  { o with
    platforms := createPlatforms level.2,
    pm := { passengers := [], missions := [], nextId := o.pm.nextId },
    gameState := { o.gameState with
      currentLevel := levelNumber,
      totalMissions := level.1.passengerCount,
      completedMissions := 0 } }

/-- The freshly constructed orchestrator state. -/
def initialOrch : OrchS :=
  { platforms := []
    pm := { passengers := [], missions := [], nextId := 0 }
    gameState := { currentLevel := 1, score := 0, completedMissions := 0,
                   totalMissions := 0, gameStatus := GameStatus.loading,
                   timeRemaining := 20 }
    timersActive := false
    pendingSpawn := false
    endReason := none }

/-- startGame: load level 1, start its missions and begin playing. -/
def startGame (freshSeed pIdx dIdx : Nat) : OrchS :=
  let o := { initialOrch with gameState :=
    { initialOrch.gameState with gameStatus := GameStatus.loading } }
  let o2 := loadLevel o 1 none freshSeed
  let o3 := startLevelMissions o2 pIdx dIdx
  { o3 with gameState := { o3.gameState with gameStatus := GameStatus.playing } }

/-- attemptPickup: requires the platform to exist with a waiting passenger
and a waiting mission whose passenger is at that platform; on success clears
the platform flag, refreshes the objective display and restarts the timer. -/
def attemptPickup (o : OrchS) (platformId : String) : Bool × OrchS :=
  match getPlatformById o.platforms platformId with
  | none => (false, o)
  | some platform =>
    if !platform.passengerWaiting then (false, o)
    else
      match (getActiveMissions o.pm).find? (fun m =>
          missionPickupPlatform o.pm m == some platformId &&
          m.status == MissionStatus.waiting) with
      | none => (false, o)
      | some mission =>
        let picked := pickupPassenger o.pm mission.passengerId
        if picked.1 then
          (true, startPickupTimer (updateObjectiveDisplay
            { o with pm := picked.2,
                     platforms := setPlatformPassengerWaiting o.platforms platformId false }))
        else (false, { o with pm := picked.2 })

def deliveryBaseScore : Int := 100

/-- The delivery time bonus formula of attemptDelivery: 50 minus the elapsed
seconds, clamped at 0.  The call site computes the elapsed seconds as
Date.now() minus Date.now(), which elapses 0 seconds. -/
def deliveryTimeBonus (elapsedSeconds : Int) : Int :=
  max 0 (50 - elapsedSeconds)

/-- attemptDelivery: requires a current (boarded) passenger whose destination
is this platform; on success adds the base score plus the time bonus,
increments completedMissions, refreshes the objective display (which may
complete the level) and schedules the delayed next-mission spawn. -/
def attemptDelivery (o : OrchS) (platformId : String) : Bool × OrchS :=
  match getCurrentPassenger o.pm with
  | none => (false, o)
  | some currentPassenger =>
    if !(currentPassenger.destinationPlatform == platformId) then (false, o)
    else
      let delivered := deliverPassenger o.pm currentPassenger.id
      if delivered.1 then
        let gs2 := { o.gameState with
          score := o.gameState.score + deliveryBaseScore + deliveryTimeBonus 0,
          completedMissions := o.gameState.completedMissions + 1 }
        let o2 := { o with pm := delivered.2, gameState := gs2 }
        (true, { updateObjectiveDisplay o2 with pendingSpawn := true })
      else (false, { o with pm := delivered.2 })

/-- advanceToNextLevel: regenerate the next level and resume playing.  The
source does not cancel a still-pending delayed spawn call here. -/
def advanceToNextLevel (o : OrchS) (freshSeed pIdx dIdx : Nat) : OrchS :=
  let o2 := loadLevel o (o.gameState.currentLevel + 1) none freshSeed
  let o3 := startLevelMissions o2 pIdx dIdx
  { o3 with gameState := { o3.gameState with gameStatus := GameStatus.playing } }

def pauseGame (o : OrchS) : OrchS :=
  if o.gameState.gameStatus == GameStatus.playing then
    { o with gameState := { o.gameState with gameStatus := GameStatus.paused } }
  else o

def resumeGame (o : OrchS) : OrchS :=
  if o.gameState.gameStatus == GameStatus.paused then
    { o with gameState := { o.gameState with gameStatus := GameStatus.playing } }
  else o

/-- Modelled from the spec: MissionOrchestrator.endGame is invoked by
Game.triggerCrashGameOver with the crash reason, but its body is absent from
the provided MissionOrchestrator source.  Per the specification a crash
immediately sets gameStatus to game_over with the crash reason regardless of
timer state and halts all timers, and entering game_over cancels all pending
timers and callbacks of the level. -/
def endGame (o : OrchS) (reason : EndReason) : OrchS :=
  { o with gameState := { o.gameState with gameStatus := GameStatus.game_over },
           timersActive := false, pendingSpawn := false, endReason := some reason }

/-- Game.handlePlatformCollision: any collision while the gear is not down is
a crash, which (through the crash sequence) ends the game with the crashed
reason; a collision with gear down is a landing and only starts the external
dwell timer, leaving the orchestrator state unchanged. -/
def handlePlatformCollision (sm : TaxiSM) (o : OrchS) (platformId : String) : OrchS :=
  if !(isGearDown sm) then endGame o EndReason.crashed
  else o

/-- The externally triggerable orchestrator events: the two mission
operations, the firing of the delayed spawn while it is pending, the two
timer firings while the timers are armed, the level advance offered on the
level-complete screen, a reported taxi-platform collision, and pause and
resume. -/
inductive OrchStep : OrchS → OrchS → Prop where
  | pickup (o : OrchS) (platformId : String) :
      OrchStep o (attemptPickup o platformId).2
  | deliver (o : OrchS) (platformId : String) :
      OrchStep o (attemptDelivery o platformId).2
  | spawn (o : OrchS) (pIdx dIdx : Nat) (h : o.pendingSpawn = true) :
      OrchStep o (spawnFire o pIdx dIdx)
  | tick (o : OrchS) (h : o.timersActive = true) :
      OrchStep o (timerTick o)
  | expire (o : OrchS) (h : o.timersActive = true) :
      OrchStep o (triggerGameOver o)
  | advance (o : OrchS) (freshSeed pIdx dIdx : Nat)
      (h : o.gameState.gameStatus = GameStatus.level_complete) :
      OrchStep o (advanceToNextLevel o freshSeed pIdx dIdx)
  | collide (o : OrchS) (sm : TaxiSM) (platformId : String) :
      OrchStep o (handlePlatformCollision sm o platformId)
  | pause (o : OrchS) : OrchStep o (pauseGame o)
  | resume (o : OrchS) : OrchStep o (resumeGame o)

/-- Orchestrator states reachable from a started game. -/
inductive OrchReachable : OrchS → Prop where
  | start (freshSeed pIdx dIdx : Nat) : OrchReachable (startGame freshSeed pIdx dIdx)
  | step {o o2 : OrchS} : OrchReachable o → OrchStep o o2 → OrchReachable o2

/-- The number of missions currently in status active. -/
def activeMissionCount (o : OrchS) : Nat :=
  (o.pm.missions.filter (fun m => m.status == MissionStatus.active)).length

theorem updateObjectiveDisplay_pm (o : OrchS) : (updateObjectiveDisplay o).pm = o.pm := by
  unfold updateObjectiveDisplay checkLevelComplete
  split_ifs <;> rfl

theorem updateObjectiveDisplay_score (o : OrchS) :
    (updateObjectiveDisplay o).gameState.score = o.gameState.score := by
  unfold updateObjectiveDisplay checkLevelComplete
  split_ifs <;> rfl

theorem updateObjectiveDisplay_completedMissions (o : OrchS) :
    (updateObjectiveDisplay o).gameState.completedMissions =
      o.gameState.completedMissions := by
  unfold updateObjectiveDisplay checkLevelComplete
  split_ifs <;> rfl

/-- C8: attemptPickup on a platform with no waiting mission returns false
with the entire orchestrator state unchanged: every mission status, every
passenger flag, the score and completedMissions are untouched. -/
theorem c8_invalid_pickup_noop (o : OrchS) (platformId : String)
    (H : ∀ m ∈ o.pm.missions,
      ¬(m.status = MissionStatus.waiting ∧
        missionPickupPlatform o.pm m = some platformId)) :
    attemptPickup o platformId = (false, o) := by
  unfold attemptPickup
  cases hplat : getPlatformById o.platforms platformId with
  | none => rfl
  | some platform =>
    by_cases hw : platform.passengerWaiting = true
    · have hfind : (getActiveMissions o.pm).find? (fun m =>
          missionPickupPlatform o.pm m == some platformId &&
          m.status == MissionStatus.waiting) = none := by
        rw [List.find?_eq_none]
        intro m hm
        have hm2 : m ∈ o.pm.missions := (List.mem_filter.mp hm).1
        simp only [Bool.and_eq_true, beq_iff_eq, not_and]
        intro h1 h2
        exact H m hm2 ⟨h2, h1⟩
      simp [hw, hfind]
    · simp only [Bool.not_eq_true] at hw
      simp [hw]

/-- C8 witness: the no-op at a platform with a passenger-waiting flag but no
waiting mission. -/
theorem c8_invalid_pickup_noop_witness :
    (∀ m ∈ (OrchS.mk [⟨"A1", false, true⟩]
        ⟨[⟨0, "A2", "A1", true, false⟩], [⟨0, 0, MissionStatus.active⟩], 1⟩
        ⟨1, 0, 0, 2, GameStatus.playing, 20⟩ true false none).pm.missions,
      ¬(m.status = MissionStatus.waiting ∧
        missionPickupPlatform (OrchS.mk [⟨"A1", false, true⟩]
          ⟨[⟨0, "A2", "A1", true, false⟩], [⟨0, 0, MissionStatus.active⟩], 1⟩
          ⟨1, 0, 0, 2, GameStatus.playing, 20⟩ true false none).pm m = some "A1")) ∧
    attemptPickup (OrchS.mk [⟨"A1", false, true⟩]
        ⟨[⟨0, "A2", "A1", true, false⟩], [⟨0, 0, MissionStatus.active⟩], 1⟩
        ⟨1, 0, 0, 2, GameStatus.playing, 20⟩ true false none) "A1" =
      (false, OrchS.mk [⟨"A1", false, true⟩]
        ⟨[⟨0, "A2", "A1", true, false⟩], [⟨0, 0, MissionStatus.active⟩], 1⟩
        ⟨1, 0, 0, 2, GameStatus.playing, 20⟩ true false none) :=
  ⟨by decide, c8_invalid_pickup_noop _ "A1" (by decide)⟩

/-- C2: a successful pickup resets the countdown to the full 20-unit
interval; the delayed post-delivery spawn, when it fires, also resets it to
20 (and a successful delivery schedules that spawn); and a countdown tick
that reaches 0 moves gameStatus to game_over with the time-ran-out reason. -/
theorem c2_timer_reset_and_expiry (o : OrchS) (platformId : String) (pIdx dIdx : Nat) :
    ((attemptPickup o platformId).1 = true →
      ((attemptPickup o platformId).2).gameState.timeRemaining = 20) ∧
    (spawnFire o pIdx dIdx).gameState.timeRemaining = 20 ∧
    ((attemptDelivery o platformId).1 = true →
      ((attemptDelivery o platformId).2).pendingSpawn = true) ∧
    (o.timersActive = true → o.gameState.timeRemaining = 1 →
      (timerTick o).gameState.gameStatus = GameStatus.game_over ∧
      (timerTick o).endReason = some EndReason.timeRanOut) := by
  refine ⟨?_, rfl, ?_, ?_⟩
  · unfold attemptPickup
    cases hplat : getPlatformById o.platforms platformId with
    | none => simp
    | some platform =>
      by_cases hw : platform.passengerWaiting = true
      · cases hfind : (getActiveMissions o.pm).find? (fun m =>
            missionPickupPlatform o.pm m == some platformId &&
            m.status == MissionStatus.waiting) with
        | none => simp [hw, hfind]
        | some mission =>
          by_cases hp : (pickupPassenger o.pm mission.passengerId).1 = true
          · simp [hw, hfind, hp, startPickupTimer]
          · simp only [Bool.not_eq_true] at hp
            simp [hw, hfind, hp]
      · simp only [Bool.not_eq_true] at hw
        simp [hw]
  · unfold attemptDelivery
    cases hcp : getCurrentPassenger o.pm with
    | none => simp
    | some currentPassenger =>
      by_cases hd : currentPassenger.destinationPlatform = platformId
      · by_cases hdel : (deliverPassenger o.pm currentPassenger.id).1 = true
        · simp [hd, hdel]
        · simp only [Bool.not_eq_true] at hdel
          simp [hd, hdel]
      · simp [hd]
  · intro _ h1
    unfold timerTick
    rw [h1]
    norm_num [triggerGameOver]

/-- C3: a reported taxi-platform collision with the gear not down ends the
run: gameStatus becomes game_over with the crashed reason, regardless of the
remaining timer value, and all pending timers and callbacks are halted; a
collision with the gear down is a landing and leaves the orchestrator state
unchanged. -/
theorem c3_crash_vs_landing (o : OrchS) (sm : TaxiSM) (platformId : String) :
    (isGearDown sm = false →
      handlePlatformCollision sm o platformId = endGame o EndReason.crashed ∧
      (handlePlatformCollision sm o platformId).gameState.gameStatus =
        GameStatus.game_over ∧
      (handlePlatformCollision sm o platformId).endReason = some EndReason.crashed ∧
      (handlePlatformCollision sm o platformId).timersActive = false ∧
      (handlePlatformCollision sm o platformId).pendingSpawn = false) ∧
    (isGearDown sm = true → handlePlatformCollision sm o platformId = o) := by
  constructor
  · intro h
    simp [handlePlatformCollision, h, endGame]
  · intro h
    simp [handlePlatformCollision, h]

/-- C3 witness: the crash and landing outcomes at a concrete state, with the
timer far from expiry. -/
theorem c3_crash_vs_landing_witness :
    isGearDown ⟨TaxiState.gearup, TaxiState.idle⟩ = false ∧
    (handlePlatformCollision ⟨TaxiState.gearup, TaxiState.idle⟩
        (OrchS.mk [] ⟨[], [], 0⟩ ⟨1, 0, 0, 2, GameStatus.playing, 17⟩ true true none)
        "A1").gameState.gameStatus = GameStatus.game_over ∧
    isGearDown ⟨TaxiState.geardown, TaxiState.idle⟩ = true ∧
    handlePlatformCollision ⟨TaxiState.geardown, TaxiState.idle⟩
        (OrchS.mk [] ⟨[], [], 0⟩ ⟨1, 0, 0, 2, GameStatus.playing, 17⟩ true true none)
        "A1" =
      OrchS.mk [] ⟨[], [], 0⟩ ⟨1, 0, 0, 2, GameStatus.playing, 17⟩ true true none :=
  ⟨rfl,
   ((c3_crash_vs_landing
      (OrchS.mk [] ⟨[], [], 0⟩ ⟨1, 0, 0, 2, GameStatus.playing, 17⟩ true true none)
      ⟨TaxiState.gearup, TaxiState.idle⟩ "A1").1 rfl).2.1,
   rfl,
   (c3_crash_vs_landing
      (OrchS.mk [] ⟨[], [], 0⟩ ⟨1, 0, 0, 2, GameStatus.playing, 17⟩ true true none)
      ⟨TaxiState.geardown, TaxiState.idle⟩ "A1").2 rfl⟩

/-- A state with one waiting mission at platform A1, used to exercise the
pickup path. -/
def demoPickupState : OrchS :=
  { platforms := [⟨"A1", false, true⟩, ⟨"A2", false, false⟩]
    pm := { passengers := [⟨0, "A1", "A2", false, false⟩]
            missions := [⟨0, 0, MissionStatus.waiting⟩]
            nextId := 1 }
    gameState := { currentLevel := 1, score := 0, completedMissions := 0,
                   totalMissions := 2, gameStatus := GameStatus.playing,
                   timeRemaining := 13 }
    timersActive := true
    pendingSpawn := false
    endReason := none }

/-- A state with one active mission bound for platform A2, used to exercise
the delivery path. -/
def demoDeliverState : OrchS :=
  { platforms := [⟨"A1", false, false⟩, ⟨"A2", false, false⟩]
    pm := { passengers := [⟨0, "A1", "A2", true, false⟩]
            missions := [⟨0, 0, MissionStatus.active⟩]
            nextId := 1 }
    gameState := { currentLevel := 1, score := 250, completedMissions := 1,
                   totalMissions := 2, gameStatus := GameStatus.playing,
                   timeRemaining := 13 }
    timersActive := true
    pendingSpawn := false
    endReason := none }

/-- A state whose countdown is about to expire. -/
def demoTickState : OrchS :=
  { platforms := []
    pm := { passengers := [], missions := [], nextId := 0 }
    gameState := { currentLevel := 1, score := 0, completedMissions := 0,
                   totalMissions := 2, gameStatus := GameStatus.playing,
                   timeRemaining := 1 }
    timersActive := true
    pendingSpawn := false
    endReason := none }

/-- C2 witness: the timer facts at concrete states on which the pickup and
delivery hypotheses hold. -/
theorem c2_timer_reset_and_expiry_witness :
    (attemptPickup demoPickupState "A1").1 = true ∧
    ((attemptPickup demoPickupState "A1").2).gameState.timeRemaining = 20 ∧
    (spawnFire demoPickupState 0 1).gameState.timeRemaining = 20 ∧
    (attemptDelivery demoDeliverState "A2").1 = true ∧
    ((attemptDelivery demoDeliverState "A2").2).pendingSpawn = true ∧
    ((timerTick demoTickState).gameState.gameStatus = GameStatus.game_over ∧
      (timerTick demoTickState).endReason = some EndReason.timeRanOut) :=
  ⟨by decide,
   (c2_timer_reset_and_expiry demoPickupState "A1" 0 1).1 (by decide),
   (c2_timer_reset_and_expiry demoPickupState "A1" 0 1).2.1,
   by decide,
   (c2_timer_reset_and_expiry demoDeliverState "A2" 0 1).2.2.1 (by decide),
   (c2_timer_reset_and_expiry demoTickState "A1" 0 1).2.2.2 (by decide) (by decide)⟩

theorem find?_updateFirst {α : Type} (p : α → Bool) (f : α → α) (l : List α)
    (hpf : ∀ a, p a = true → p (f a) = true) :
    (updateFirst p f l).find? p = (l.find? p).map f := by
  induction l with
  | nil => rfl
  | cons x xs ih =>
    by_cases hx : p x = true
    · rw [updateFirst, if_pos hx, List.find?_cons_of_pos _ (hpf x hx),
          List.find?_cons_of_pos _ hx]
      rfl
    · rw [updateFirst, if_neg hx, List.find?_cons_of_neg _ hx,
          List.find?_cons_of_neg _ hx, ih]

theorem deliverPassenger_success_find (pm : PassengerMgr) (pid : Nat)
    (h : (deliverPassenger pm pid).1 = true) :
    ((deliverPassenger pm pid).2.missions.find? (fun m => m.passengerId == pid)).map
        MissionS.status = some MissionStatus.completed := by
  unfold deliverPassenger at h ⊢
  cases hfp : pm.passengers.find? (fun p => p.id == pid) with
  | none => rw [hfp] at h; simp at h
  | some p =>
    cases hfm : pm.missions.find? (fun m => m.passengerId == pid) with
    | none => rw [hfp, hfm] at h; simp at h
    | some m0 =>
      rw [hfp, hfm] at h
      dsimp only at h ⊢
      cases hpu : p.isPickedUp with
      | false => rw [hpu] at h; simp at h
      | true =>
        cases hdev : p.isDelivered with
        | true => rw [hpu, hdev] at h; simp at h
        | false =>
          rw [if_pos (show (true && !false) = true from rfl)]
          dsimp only
          rw [find?_updateFirst (fun m => m.passengerId == pid)
                (fun m => { m with status := MissionStatus.completed })
                pm.missions (fun a ha => ha), hfm]
          rfl

/-- C7: on an accepted delivery the delivered mission ends in status
completed, completedMissions grows by exactly 1, and the score grows by the
base score plus the time bonus; the bonus formula is antitone in the elapsed
time and clamped at 0, and since the call site evaluates it at 0 elapsed
seconds, the score increase is at least the base delivery reward. -/
theorem c7_delivery_completes_and_scores (o : OrchS) (platformId : String)
    (h : (attemptDelivery o platformId).1 = true) :
    (∃ cp, getCurrentPassenger o.pm = some cp ∧
      ((((attemptDelivery o platformId).2).pm.missions.find?
          (fun m => m.passengerId == cp.id)).map MissionS.status) =
        some MissionStatus.completed) ∧
    ((attemptDelivery o platformId).2).gameState.completedMissions =
      o.gameState.completedMissions + 1 ∧
    ((attemptDelivery o platformId).2).gameState.score =
      o.gameState.score + deliveryBaseScore + deliveryTimeBonus 0 ∧
    o.gameState.score + deliveryBaseScore ≤
      ((attemptDelivery o platformId).2).gameState.score ∧
    (∀ e1 e2 : Int, e1 ≤ e2 → deliveryTimeBonus e2 ≤ deliveryTimeBonus e1) ∧
    (∀ e : Int, 0 ≤ deliveryTimeBonus e) := by
  have hmono : ∀ e1 e2 : Int, e1 ≤ e2 → deliveryTimeBonus e2 ≤ deliveryTimeBonus e1 := by
    intro e1 e2 h12
    simp only [deliveryTimeBonus]
    omega
  have hnn : ∀ e : Int, 0 ≤ deliveryTimeBonus e := by
    intro e
    simp only [deliveryTimeBonus]
    omega
  unfold attemptDelivery at h ⊢
  cases hcp : getCurrentPassenger o.pm with
  | none => rw [hcp] at h; simp at h
  | some cp =>
    rw [hcp] at h
    by_cases hd : cp.destinationPlatform = platformId
    · by_cases hdel : (deliverPassenger o.pm cp.id).1 = true
      · have hfind := deliverPassenger_success_find o.pm cp.id hdel
        refine ⟨⟨cp, rfl, ?_⟩, ?_, ?_, ?_, hmono, hnn⟩ <;>
          simp [hd, hdel, updateObjectiveDisplay_pm, updateObjectiveDisplay_score,
            updateObjectiveDisplay_completedMissions, hfind, deliveryBaseScore,
            deliveryTimeBonus]
      · simp [hd, hdel] at h
    · simp [hd] at h

/-- C7 witness: the delivery facts at a concrete state holding one active
mission bound for platform A2. -/
theorem c7_delivery_completes_and_scores_witness :
    (attemptDelivery demoDeliverState "A2").1 = true ∧
    ((∃ cp, getCurrentPassenger demoDeliverState.pm = some cp ∧
        ((((attemptDelivery demoDeliverState "A2").2).pm.missions.find?
            (fun m => m.passengerId == cp.id)).map MissionS.status) =
          some MissionStatus.completed) ∧
      ((attemptDelivery demoDeliverState "A2").2).gameState.completedMissions =
        demoDeliverState.gameState.completedMissions + 1 ∧
      ((attemptDelivery demoDeliverState "A2").2).gameState.score =
        demoDeliverState.gameState.score + deliveryBaseScore + deliveryTimeBonus 0 ∧
      demoDeliverState.gameState.score + deliveryBaseScore ≤
        ((attemptDelivery demoDeliverState "A2").2).gameState.score ∧
      (∀ e1 e2 : Int, e1 ≤ e2 → deliveryTimeBonus e2 ≤ deliveryTimeBonus e1) ∧
      (∀ e : Int, 0 ≤ deliveryTimeBonus e)) :=
  ⟨by decide, c7_delivery_completes_and_scores demoDeliverState "A2" (by decide)⟩

/-! ## The stale post-delivery spawn callback and the single-active-mission
invariant (C1)

attemptDelivery schedules the next-mission spawn with a 2000 ms delay, and
checkLevelComplete can offer the level advance in the same delivery; the
source cancels the delayed spawn neither in advanceToNextLevel nor in
triggerGameOver, so advancing the level within the cooldown lets the stale
callback spawn a second concurrent mission in the new level.  Two waiting
missions then allow two successful pickups, leaving two missions active at
once.  The trace below drives the orchestrator there through reachable
steps only: level 1 carries totalMissions 2, so two deliveries complete it;
SPACE is pressed before the second delivery cooldown has elapsed. -/

def c1s0 : OrchS := startGame 0 0 1

def c1s1 : OrchS := (attemptPickup c1s0 "A1").2

def c1s2 : OrchS := (attemptDelivery c1s1 "A2").2

def c1s3 : OrchS := spawnFire c1s2 0 1

def c1s4 : OrchS := (attemptPickup c1s3 "A1").2

def c1s5 : OrchS := (attemptDelivery c1s4 "A2").2

def c1s6 : OrchS := advanceToNextLevel c1s5 0 0 1

def c1s7 : OrchS := spawnFire c1s6 2 3

def c1s8 : OrchS := (attemptPickup c1s7 "A1").2

def c1s9 : OrchS := (attemptPickup c1s8 "A3").2

/-- C1: a reachable state with two simultaneously active missions, reached
when the stale post-delivery spawn fires after a level advance; the second
pickup, at a different platform and before any delivery of the boarded
passenger, returns true and boards a second passenger, contradicting the
claimed invariant. -/
theorem c1_two_active_missions_reachable :
    OrchReachable c1s9 ∧ activeMissionCount c1s9 = 2 ∧
    activeMissionCount c1s8 = 1 ∧ (attemptPickup c1s8 "A3").1 = true := by
  refine ⟨?_, by decide, by decide, by decide⟩
  have h0 : OrchReachable c1s0 := OrchReachable.start 0 0 1
  have h1 : OrchReachable c1s1 := h0.step (OrchStep.pickup c1s0 "A1")
  have h2 : OrchReachable c1s2 := h1.step (OrchStep.deliver c1s1 "A2")
  have h3 : OrchReachable c1s3 := h2.step (OrchStep.spawn c1s2 0 1 (by decide))
  have h4 : OrchReachable c1s4 := h3.step (OrchStep.pickup c1s3 "A1")
  have h5 : OrchReachable c1s5 := h4.step (OrchStep.deliver c1s4 "A2")
  have h6 : OrchReachable c1s6 := h5.step (OrchStep.advance c1s5 0 0 1 (by decide))
  have h7 : OrchReachable c1s7 := h6.step (OrchStep.spawn c1s6 2 3 (by decide))
  have h8 : OrchReachable c1s8 := h7.step (OrchStep.pickup c1s7 "A1")
  exact h8.step (OrchStep.pickup c1s8 "A3")

end SpacedTaxi
